import Mathlib

/-!
Verification development for `src/utils/detect-server.js` of the
netlify-cli-shared-watch repository.

The JavaScript module resolves the dev-server settings record from the raw
`devConfig` block, the CLI `flags`, and a set of external collaborators
(framework detector, interactive picker, TLS file reader, port prober).
We embed the module shallowly: loosely typed JavaScript config values become
an inductive `JVal` (numbers are idealized as rationals so that non-integer
numbers such as 3000.5 are representable), collaborators become a record of
pure functions, the thrown errors become an inductive `DevError`, and the
sequential mutation of the `settings` object becomes a pipeline of named
steps (one per contiguous region of the source) in the `Except DevError`
monad.  Each definition's doc comment names the source lines it embeds.
-/

/-- Loosely typed JavaScript configuration value: a number (idealized as a
rational, so non-integer numbers are representable) or a string.  Used for
fields the source inspects with `typeof`. -/
inductive JVal where
  | num (q : ℚ)
  | str (s : String)
deriving DecidableEq, Repr

/-- JavaScript truthiness of a `JVal`: `0` and the empty string are falsy. -/
def JVal.truthy : JVal → Bool
  | .num q => q != 0
  | .str s => !s.isEmpty

/-- JavaScript truthiness of an optional value (`undefined` is falsy). -/
def valTruthy : Option JVal → Bool
  | none => false
  | some v => v.truthy

/-- JavaScript truthiness of an optional string field. -/
def strTruthy : Option String → Bool
  | none => false
  | some s => !s.isEmpty

/-- JavaScript truthiness of an optional numeric field (such as
`settings.frameworkPort`). -/
def numTruthy : Option ℚ → Bool
  | none => false
  | some q => q != 0

/-- JavaScript strict equality `v === q` between an optional raw config value
and an optional number: true exactly when both are numbers of equal value. -/
def jvalEqNum : Option JVal → Option ℚ → Bool
  | some (.num a), some b => a == b
  | _, _ => false

/-- JavaScript strict equality between a raw config value and a concrete
number. -/
def jvalIsNum : JVal → ℚ → Bool
  | .num a, b => a == b
  | .str _, _ => false

/-- JavaScript `a || b` on an optional string: the string if truthy, else the
default. -/
def strOrDefault (v : Option String) (d : String) : String :=
  match v with
  | some s => if s.isEmpty then d else s
  | none => d

/-- Raw value of the `https` block of the dev config: either a plain object
with optional `keyFile` and `certFile` members, or some other (non
plain-object) truthy value, which `readHttpsSettings` rejects. -/
inductive HttpsVal where
  | obj (keyFile certFile : Option JVal)
  | nonObj
deriving DecidableEq, Repr

/-- Result of `readHttpsSettings`: key and certificate file contents. -/
structure HttpsResult where
  key : String
  cert : String
deriving DecidableEq, Repr

/-- Raw `[dev]` config block (`devConfig` in the source).  Absent fields are
`none`.  Fields the source inspects with `typeof` or passes raw to a
collaborator are `JVal`; the rest are typed strings. -/
structure DevConfig where
  framework : Option JVal := none
  command : Option String := none
  targetPort : Option JVal := none
  port : Option JVal := none
  publish : Option String := none
  functions : Option String := none
  functionsPort : Option JVal := none
  jwtSecret : Option String := none
  jwtRolePath : Option String := none
  https : Option HttpsVal := none
deriving DecidableEq, Repr

/-- CLI flags relevant to `serverSettings`. -/
structure Flags where
  dir : Option String := none
  staticServerPort : Option JVal := none
deriving DecidableEq, Repr

/-- Nested `dev` member of a framework descriptor: ordered command
alternatives and the port of the framework dev server. -/
structure DevInfo where
  commands : List String
  port : ℚ
deriving DecidableEq, Repr

/-- Nested `build` member of a framework descriptor. -/
structure BuildInfo where
  directory : String
deriving DecidableEq, Repr

/-- Nested `watch` member of a framework descriptor: alternative
watch-command argument lists, used for multi-candidate disambiguation. -/
structure WatchInfo where
  commands : List (List String)
deriving DecidableEq, Repr

/-- Framework descriptor as returned by the detector collaborator; the fields
are exactly those the source reads from a descriptor (`name`, top-level
`command`, `dev.commands`, `dev.port`, `build.directory`,
`staticAssetsDirectory`, `env`, `watch.commands`). -/
structure FrameworkDescriptor where
  name : String
  command : String
  dev : DevInfo
  build : BuildInfo
  staticAssetsDirectory : Option String := none
  env : List (String × String) := []
  watch : WatchInfo
deriving DecidableEq, Repr

/-- Value attached to a picker option: the JavaScript spread
`\x7b ...framework, commands: [command] \x7d` — all descriptor fields plus a
top-level `commands` member holding the selected watch command. -/
structure ChosenVal extends FrameworkDescriptor where
  commands : List (List String)
deriving DecidableEq, Repr

/-- One selectable entry handed to the interactive picker (lines 246-250). -/
structure InquirerOption where
  name : String
  value : ChosenVal
  short : String
deriving DecidableEq, Repr

/-- Settings record under construction and finally returned; fields the
source may leave unset are options, `noCmd` defaults to false. -/
structure Settings where
  command : Option String := none
  frameworkPort : Option ℚ := none
  port : Option ℚ := none
  dist : Option String := none
  framework : Option String := none
  env : List (String × String) := []
  noCmd : Bool := false
  jwtSecret : Option String := none
  jwtRolePath : Option String := none
  functions : Option String := none
  functionsPort : Option ℕ := none
  https : Option HttpsResult := none
deriving DecidableEq, Repr

/-- Every error thrown by the module, one constructor per `throw` site. -/
inductive DevError where
  | invalidFramework
  | httpsNotObject
  | keyFileNotString
  | certFileNotString
  | keyReadError (msg : String)
  | certReadError (msg : String)
  | customNeedsCommandAndTargetPort
  | frameworkMustBeCustom
  | frameworkNotDetected (name : String)
  | invalidTargetPort
  | portEqualsTargetPort
  | commandRequiredForTargetPort
  | targetPortWithDir
  | portConflictsWithApplication
  | noTargetPortDetected
  | invalidPort
  | couldNotAcquirePort (tried : JVal)
deriving DecidableEq, Repr

/-- Message text of each error, as written at the corresponding `throw` in
the source. -/
def errMessage : DevError → String
  | .invalidFramework => "Invalid \"framework\" option provided in config"
  | .httpsNotObject =>
      "https options should be an object with 'keyFile' and 'certFile' string properties"
  | .keyFileNotString => "Private key file configuration should be a string"
  | .certFileNotString => "Certificate file configuration should be a string"
  | .keyReadError m => "Error reading private key file: " ++ m
  | .certReadError m => "Error reading certificate file: " ++ m
  | .customNeedsCommandAndTargetPort =>
      "\"command\" and \"targetPort\" properties are required when \"framework\" is set to \"#custom\""
  | .frameworkMustBeCustom =>
      "\"framework\" option must be set to \"#custom\" when specifying both \"command\" and \"targetPort\" options"
  | .frameworkNotDetected n =>
      "Specified \"framework\" detector \"" ++ n ++ "\" did not pass requirements for your project"
  | .invalidTargetPort =>
      "Invalid \"targetPort\" option specified. The value of \"targetPort\" option must be an integer"
  | .portEqualsTargetPort =>
      "\"port\" and \"targetPort\" options cannot have same values. Please consult the documentation for more details: https://cli.netlify.com/netlify-dev#netlifytoml-dev-block"
  | .commandRequiredForTargetPort =>
      "No \"command\" specified or detected. The \"command\" option is required to use \"targetPort\" option."
  | .targetPortWithDir =>
      "\"targetPort\" option cannot be used in conjunction with \"dir\" flag which is used to run a static server."
  | .portConflictsWithApplication =>
      "The \"port\" option you specified conflicts with the port of your application. Please use a different value for \"port\""
  | .noTargetPortDetected => "No \"targetPort\" option specified or detected."
  | .invalidPort =>
      "Invalid \"port\" option specified. The value of \"port\" option must be an integer"
  | .couldNotAcquirePort t =>
      "Could not acquire required \"port\": " ++
        (match t with | .num q => toString q | .str s => s)

/-- External collaborators of the module, already specialized to the current
process: the port prober (`getPort`), the TLS file reader
(`readFileAsyncCatchError`, returning either the content or the error
message), the framework detector (`listFrameworks`, `hasFramework`,
`getFramework`, each taking the project directory), the interactive picker,
and the current working directory (`process.cwd()`). -/
structure Collab where
  getPort : JVal → ℕ
  readFile : String → Except String String
  listFrameworks : String → List FrameworkDescriptor
  hasFramework : String → String → Bool
  getFramework : String → String → FrameworkDescriptor
  picker : List InquirerOption → InquirerOption
  cwd : String

/-- Default proxy port (line 211). -/
def DEFAULT_PORT : ℚ := 8888

/-- Default static-server port (line 230). -/
def DEFAULT_STATIC_PORT : ℚ := 3999

/-- Lines 14-40: validate the `https` block and read the key and certificate
files; both reads are awaited jointly and the key error is checked first. -/
def readHttpsSettings (readFile : String → Except String String) :
    HttpsVal → Except DevError HttpsResult
  | .nonObj => .error .httpsNotObject
  | .obj keyFile certFile =>
    match keyFile with
    | some (.str kf) =>
      match certFile with
      | some (.str cf) =>
        match readFile kf, readFile cf with
        | .error e, _ => .error (.keyReadError e)
        | .ok _, .error e => .error (.certReadError e)
        | .ok k, .ok c => .ok { key := k, cert := c }
      | _ => .error .certFileNotString
    | _ => .error .keyFileNotString

/-- Lines 42-55: derive a settings draft from a framework descriptor;
`command` is the first `dev.commands` entry (absent when that list is empty),
`dist` is `staticAssetsDirectory || build.directory`. -/
def getSettingsFromFramework (f : FrameworkDescriptor) : Settings :=
  { command := f.dev.commands.head?
    frameworkPort := some f.dev.port
    dist := some (strOrDefault f.staticAssetsDirectory f.build.directory)
    framework := some f.name
    env := f.env }

/-- Presentation-only color wrapper (`chalk.yellow`); modelled as its
no-color behavior, the identity. -/
def chalkYellow (s : String) : String := s

/-- Lines 243-253: one picker option per (framework, watch-command) pair;
`name` is the displayed label, `value` is the descriptor spread together with
the selected watch command, `short` coerces the command array to its JS
string form (comma-joined). -/
def formatSettingsArrForInquirer (frameworks : List FrameworkDescriptor) :
    List InquirerOption :=
  (frameworks.map (fun framework =>
    framework.watch.commands.map (fun command =>
      { name := "[" ++ chalkYellow framework.name ++ "] " ++ framework.command
          ++ " " ++ String.intercalate " " command
        value := { toFrameworkDescriptor := framework, commands := [command] }
        short := framework.name ++ "-" ++ String.intercalate "," command
        : InquirerOption }))).flatten

/-- Lines 57-93: zero candidates yield an empty draft, one candidate is used
directly, several candidates go through the interactive picker.  The second
component records the option list of each picker invocation, so that the claim
that the picker runs exactly once is expressible. -/
def detectFrameworkSettings (frameworks : List FrameworkDescriptor)
    (picker : List InquirerOption → InquirerOption) :
    Settings × List (List InquirerOption) :=
  match frameworks with
  | [] => ({}, [])
  | [f] => (getSettingsFromFramework f, [])
  | _ =>
    let scriptInquirerOptions := formatSettingsArrForInquirer frameworks
    let chosenFramework := (picker scriptInquirerOptions).value
    (getSettingsFromFramework chosenFramework.toFrameworkDescriptor,
      [scriptInquirerOptions])

/-- Lines 95-105: mutual-requirement checks for the custom origin branch. -/
def validateCustomSettings (devConfig : DevConfig) : Except DevError Unit :=
  let hasCommandAndTargetPort :=
    strTruthy devConfig.command && valTruthy devConfig.targetPort
  if devConfig.framework == some (.str "#custom") && !hasCommandAndTargetPort then
    .error .customNeedsCommandAndTargetPort
  else if devConfig.framework != some (.str "#custom") &&
      strTruthy devConfig.command && valTruthy devConfig.targetPort then
    .error .frameworkMustBeCustom
  else
    .ok ()

/-- Lines 213-228: static-server draft; an empty `dist` falls back to the
current working directory, the framework port is negotiated preferring the
flag value else the static default 3999. -/
def getStaticServerSettings (co : Collab) (dist : Option String)
    (port : Option JVal) (projectDir : String) : Settings :=
  let _ := projectDir
  let dist := strOrDefault dist co.cwd
  let preferred : JVal :=
    match port with
    | some v => if v.truthy then v else .num DEFAULT_STATIC_PORT
    | none => .num DEFAULT_STATIC_PORT
  { noCmd := true
    frameworkPort := some ((co.getPort preferred : ℕ) : ℚ)
    dist := some dist }

/-- Lines 108-135: framework type check and selection of the origin branch
(static directory flag, auto-detect, custom, named framework, or empty
draft for `#static`). -/
def resolveOrigin (co : Collab) (devConfig : DevConfig) (flags : Flags)
    (projectDir : String) : Except DevError Settings :=
  match devConfig.framework with
  | some (.str fw) =>
    if strTruthy flags.dir then
      .ok (getStaticServerSettings co flags.dir flags.staticServerPort projectDir)
    else if fw == "#auto" &&
        !(strTruthy devConfig.command && valTruthy devConfig.targetPort) then
      .ok (detectFrameworkSettings (co.listFrameworks projectDir) co.picker).1
    else if fw == "#custom" ||
        (strTruthy devConfig.command && valTruthy devConfig.targetPort) then
      (validateCustomSettings devConfig).map
        (fun _ => { framework := some "#custom" })
    else if fw != "#static" then
      if co.hasFramework fw projectDir then
        .ok (getSettingsFromFramework (co.getFramework fw projectDir))
      else
        .error (.frameworkNotDetected fw)
    else
      .ok {}
  | _ => .error .invalidFramework

/-- Lines 137-144: a raw config `command` overrides the derived command
unless the draft is a no-command static draft. -/
def stepCommandOverride (devConfig : DevConfig) (s : Settings) : Settings :=
  if !s.noCmd && strTruthy devConfig.command then
    { s with command := devConfig.command }
  else s

/-- Line 146: `settings.dist = flags.dir || devConfig.publish ||
settings.dist`. -/
def stepDist (devConfig : DevConfig) (flags : Flags) (s : Settings) : Settings :=
  { s with dist :=
      if strTruthy flags.dir then flags.dir
      else if strTruthy devConfig.publish then devConfig.publish
      else s.dist }

/-- Lines 148-169: the `targetPort` block — type check, equality with `port`,
required command, conflict with the static-directory flag, then assignment to
`frameworkPort`. -/
def stepTargetPort (devConfig : DevConfig) (flags : Flags) (s : Settings) :
    Except DevError Settings :=
  match devConfig.targetPort with
  | none => .ok s
  | some tp =>
    if tp.truthy then
      match tp with
      | .str _ => .error .invalidTargetPort
      | .num t =>
        if devConfig.port == some (.num t) then .error .portEqualsTargetPort
        else if !strTruthy s.command then .error .commandRequiredForTargetPort
        else if strTruthy flags.dir then .error .targetPortWithDir
        else .ok { s with frameworkPort := some t }
    else .ok s

/-- Lines 170-174 and, verbatim again, lines 187-191: a truthy raw `port`
must not equal the resolved `frameworkPort`. -/
def stepPortAppConflict (devConfig : DevConfig) (s : Settings) :
    Except DevError Settings :=
  if valTruthy devConfig.port && jvalEqNum devConfig.port s.frameworkPort then
    .error .portConflictsWithApplication
  else .ok s

/-- Lines 176-179: with no command, no framework and no static draft, fall
back to the static server settings. -/
def stepFallback (co : Collab) (flags : Flags) (projectDir : String)
    (s : Settings) : Settings :=
  if !strTruthy s.command && !strTruthy s.framework && !s.noCmd then
    getStaticServerSettings co s.dist flags.staticServerPort projectDir
  else s

/-- Line 181: a falsy `frameworkPort` is an error. -/
def stepFrameworkPortCheck (s : Settings) : Except DevError Settings :=
  if !numTruthy s.frameworkPort then .error .noTargetPortDetected else .ok s

/-- Lines 183-185: a truthy raw `port` that is not a number is rejected. -/
def stepPortType (devConfig : DevConfig) (s : Settings) :
    Except DevError Settings :=
  match devConfig.port with
  | some (.str v) =>
    if (JVal.str v).truthy then .error .invalidPort else .ok s
  | _ => .ok s

/-- Line 192: `devConfig.port || DEFAULT_PORT`, the port the prober is asked
for. -/
def triedPortOf (devConfig : DevConfig) : JVal :=
  match devConfig.port with
  | some v => if v.truthy then v else .num DEFAULT_PORT
  | none => .num DEFAULT_PORT

/-- Lines 192-196: negotiate the proxy port, preferring the raw `port` else
8888; a pinned raw `port` must be acquired exactly. -/
def stepNegotiatePort (co : Collab) (devConfig : DevConfig) (s : Settings) :
    Except DevError Settings :=
  let triedPort : JVal := triedPortOf devConfig
  let acquired := co.getPort triedPort
  if !jvalIsNum triedPort ((acquired : ℕ) : ℚ) && valTruthy devConfig.port then
    .error (.couldNotAcquirePort triedPort)
  else
    .ok { s with port := some ((acquired : ℕ) : ℚ) }

/-- Lines 198-200: JWT defaults and the `functions` directory override. -/
def stepDefaults (devConfig : DevConfig) (s : Settings) : Settings :=
  { s with
    jwtSecret := some (strOrDefault devConfig.jwtSecret "secret")
    jwtRolePath :=
      some (strOrDefault devConfig.jwtRolePath "app_metadata.authorization.roles")
    functions :=
      if strTruthy devConfig.functions then devConfig.functions else s.functions }

/-- Lines 201-203: negotiate a functions port when a functions directory is
configured. -/
def stepFunctionsPort (co : Collab) (devConfig : DevConfig) (s : Settings) :
    Settings :=
  if strTruthy s.functions then
    let preferred : JVal :=
      match devConfig.functionsPort with
      | some v => if v.truthy then v else .num 0
      | none => .num 0
    { s with functionsPort := some (co.getPort preferred) }
  else s

/-- Lines 204-206: attach the TLS material when an `https` block is
present. -/
def stepHttps (co : Collab) (devConfig : DevConfig) (s : Settings) :
    Except DevError Settings :=
  match devConfig.https with
  | some h => (readHttpsSettings co.readFile h).map (fun r => { s with https := some r })
  | none => .ok s

/-- Lines 108-191 of `serverSettings`: origin resolution and all override and
validation steps up to (and excluding) the proxy-port negotiation. -/
def preNegotiation (co : Collab) (devConfig : DevConfig) (flags : Flags)
    (projectDir : String) : Except DevError Settings := do
  let s0 ← resolveOrigin co devConfig flags projectDir
  let s3 ← stepTargetPort devConfig flags
    (stepDist devConfig flags (stepCommandOverride devConfig s0))
  let s4 ← stepPortAppConflict devConfig s3
  let s6 ← stepFrameworkPortCheck (stepFallback co flags projectDir s4)
  let s7 ← stepPortType devConfig s6
  stepPortAppConflict devConfig s7

/-- Lines 192-208 of `serverSettings`: proxy-port negotiation, defaults,
functions port and TLS material. -/
def postNegotiation (co : Collab) (devConfig : DevConfig) (s : Settings) :
    Except DevError Settings := do
  let s9 ← stepNegotiatePort co devConfig s
  stepHttps co devConfig (stepFunctionsPort co devConfig (stepDefaults devConfig s9))

/-- Lines 107-209: the settings-resolution entry point. -/
def serverSettings (co : Collab) (devConfig : DevConfig) (flags : Flags)
    (projectDir : String) : Except DevError Settings :=
  preNegotiation co devConfig flags projectDir >>= postNegotiation co devConfig

/-! ## General lemmas about the pipeline -/

/-- Successful bind in the error monad decomposes into two successful
steps. -/
theorem except_bind_ok {α β : Type} (a : Except DevError α)
    (f : α → Except DevError β) (b : β) :
    a >>= f = Except.ok b ↔ ∃ x, a = Except.ok x ∧ f x = Except.ok b := by
  cases a <;> simp [Bind.bind, Except.bind]

/-- The static-server draft carries no command. -/
theorem getStaticServerSettings_command (co : Collab) (dist : Option String)
    (port : Option JVal) (projectDir : String) :
    (getStaticServerSettings co dist port projectDir).command = none := rfl

/-- The static-server draft is marked as having no command to spawn. -/
theorem getStaticServerSettings_noCmd (co : Collab) (dist : Option String)
    (port : Option JVal) (projectDir : String) :
    (getStaticServerSettings co dist port projectDir).noCmd = true := rfl

/-- Applying the JWT and functions defaults does not change the proxy
port. -/
theorem stepDefaults_port (devConfig : DevConfig) (s : Settings) :
    (stepDefaults devConfig s).port = s.port := rfl

/-- Applying the JWT and functions defaults does not change the application
port. -/
theorem stepDefaults_frameworkPort (devConfig : DevConfig) (s : Settings) :
    (stepDefaults devConfig s).frameworkPort = s.frameworkPort := rfl

/-- Negotiating the functions port does not change the proxy port. -/
theorem stepFunctionsPort_port (co : Collab) (devConfig : DevConfig)
    (s : Settings) : (stepFunctionsPort co devConfig s).port = s.port := by
  unfold stepFunctionsPort; split <;> rfl

/-- Negotiating the functions port does not change the application port. -/
theorem stepFunctionsPort_frameworkPort (co : Collab) (devConfig : DevConfig)
    (s : Settings) :
    (stepFunctionsPort co devConfig s).frameworkPort = s.frameworkPort := by
  unfold stepFunctionsPort; split <;> rfl

/-- Attaching TLS material changes neither the proxy port nor the
application port. -/
theorem stepHttps_ok {co : Collab} {devConfig : DevConfig} {s t : Settings}
    (h : stepHttps co devConfig s = Except.ok t) :
    t.port = s.port ∧ t.frameworkPort = s.frameworkPort := by
  unfold stepHttps at h
  split at h
  · next v hv =>
    cases hr : readHttpsSettings co.readFile v with
    | error e => rw [hr] at h; simp [Except.map] at h
    | ok r =>
      rw [hr] at h
      simp only [Except.map] at h
      cases h
      exact ⟨rfl, rfl⟩
  · cases h
    exact ⟨rfl, rfl⟩

/-- Anatomy of a successful final phase: the negotiation step succeeded and
the remaining steps preserve both ports. -/
theorem postNegotiation_ok {co : Collab} {devConfig : DevConfig}
    {s t : Settings} (h : postNegotiation co devConfig s = Except.ok t) :
    ∃ s9, stepNegotiatePort co devConfig s = Except.ok s9 ∧
      t.port = s9.port ∧ t.frameworkPort = s9.frameworkPort := by
  obtain ⟨s9, h9, hrest⟩ := (except_bind_ok _ _ _).1 h
  obtain ⟨h1, h2⟩ := stepHttps_ok hrest
  exact ⟨s9, h9, by rw [h1, stepFunctionsPort_port, stepDefaults_port],
    by rw [h2, stepFunctionsPort_frameworkPort, stepDefaults_frameworkPort]⟩

/-- Unfolding of the negotiation step with its local bindings expanded. -/
theorem stepNegotiatePort_def (co : Collab) (devConfig : DevConfig)
    (s : Settings) :
    stepNegotiatePort co devConfig s =
      if !jvalIsNum (triedPortOf devConfig)
            ((co.getPort (triedPortOf devConfig) : ℕ) : ℚ)
          && valTruthy devConfig.port then
        Except.error (.couldNotAcquirePort (triedPortOf devConfig))
      else
        Except.ok { s with
          port := some ((co.getPort (triedPortOf devConfig) : ℕ) : ℚ) } := rfl

/-- Anatomy of a successful negotiation step: the result is the input with
the acquired proxy port, and the exact-acquisition guard did not fire. -/
theorem stepNegotiatePort_ok {co : Collab} {devConfig : DevConfig}
    {s s9 : Settings} (h : stepNegotiatePort co devConfig s = Except.ok s9) :
    s9 = { s with
      port := some ((co.getPort (triedPortOf devConfig) : ℕ) : ℚ) } ∧
    (!jvalIsNum (triedPortOf devConfig)
        ((co.getPort (triedPortOf devConfig) : ℕ) : ℚ)
      && valTruthy devConfig.port) = false := by
  rw [stepNegotiatePort_def] at h
  split at h
  · simp at h
  · next hc =>
    cases h
    exact ⟨rfl, by simpa using hc⟩

/-- A draft that survives the whole pre-negotiation phase passed the final
port-versus-application-port conflict check. -/
theorem preNegotiation_ok_conflict {co : Collab} {devConfig : DevConfig}
    {flags : Flags} {projectDir : String} {d : Settings}
    (h : preNegotiation co devConfig flags projectDir = Except.ok d) :
    (valTruthy devConfig.port && jvalEqNum devConfig.port d.frameworkPort)
      = false := by
  unfold preNegotiation at h
  obtain ⟨s0, h0, h⟩ := (except_bind_ok _ _ _).1 h
  obtain ⟨s3, h3, h⟩ := (except_bind_ok _ _ _).1 h
  obtain ⟨s4, h4, h⟩ := (except_bind_ok _ _ _).1 h
  obtain ⟨s6, h6, h⟩ := (except_bind_ok _ _ _).1 h
  obtain ⟨s7, h7, h⟩ := (except_bind_ok _ _ _).1 h
  unfold stepPortAppConflict at h
  split at h
  · simp at h
  · next hc =>
    cases h
    simpa using hc

/-! ## Concrete collaborator stubs -/

/-- Placeholder framework descriptor, only used so that collaborator stubs
are total. -/
def dummyFramework : FrameworkDescriptor :=
  { name := "dummy", command := "dummy", dev := { commands := [], port := 0 },
    build := { directory := "" }, watch := { commands := [] } }

/-- Placeholder picker option for collaborator stubs. -/
def dummyOption : InquirerOption :=
  { name := ""
    value := { toFrameworkDescriptor := dummyFramework, commands := [] }
    short := "" }

/-- Collaborator bundle whose port prober always returns `n`. -/
def constPortCollab (n : ℕ) : Collab :=
  { getPort := fun _ => n
    readFile := fun _ => .error "ENOENT"
    listFrameworks := fun _ => []
    hasFramework := fun _ _ => false
    getFramework := fun _ _ => dummyFramework
    picker := fun opts => opts.headD dummyOption
    cwd := "/cwd" }

/-- Port prober stub that returns exactly the preferred port. -/
def preferredPortProber : JVal → ℕ
  | .num q => q.num.toNat
  | .str _ => 0

/-- Collaborator bundle whose port prober returns the preferred port. -/
def preferredCollab : Collab :=
  { constPortCollab 0 with getPort := preferredPortProber }

/-! ## C1 -/

/-- Dev config for the C1 counterexample: auto-detection, no pinned port. -/
def c1Config : DevConfig := { framework := some (.str "#auto") }

/-- Flags for the C1 counterexample: serve a static directory. -/
def c1Flags : Flags := { dir := some "./public" }

/-- C1 counterexample: with no pinned `devConfig.port` and a prober that
returns 3999 for every request, `serverSettings` succeeds with the proxy
`port` equal to `frameworkPort` (both 3999): both conflict checks compare
the raw `devConfig.port`, never the negotiated proxy port, so the claimed
invariant fails when the port is negotiated from the default 8888. -/
theorem serverSettings_unpinned_port_collision :
    (serverSettings (constPortCollab 3999) c1Config c1Flags "/proj").map
        (fun s => (s.port, s.frameworkPort)) =
      Except.ok (some ((3999 : ℕ) : ℚ), some ((3999 : ℕ) : ℚ)) := rfl

/-- C1 (amended): when `devConfig.port` is pinned to a truthy number `p`,
every successful resolution returns exactly the pinned port — `s.port =
some p`, where `p` is a positive integer — strictly different from
`frameworkPort`; with no pinned port the negotiated proxy port may coincide
with `frameworkPort`. -/
theorem serverSettings_pinned_port_positive_ne_frameworkPort
    (co : Collab) (devConfig : DevConfig) (flags : Flags) (projectDir : String)
    (p : ℚ) (s : Settings)
    (hport : devConfig.port = some (.num p)) (hp : p ≠ 0)
    (hok : serverSettings co devConfig flags projectDir = Except.ok s) :
    ∃ n : ℕ, 0 < n ∧ p = (n : ℚ) ∧ s.port = some p ∧
      s.port ≠ s.frameworkPort := by
  obtain ⟨d, hpre, hpost⟩ := (except_bind_ok _ _ _).1 hok
  have hconf := preNegotiation_ok_conflict hpre
  obtain ⟨s9, hneg, hping, hfing⟩ := postNegotiation_ok hpost
  obtain ⟨hs9, hguard⟩ := stepNegotiatePort_ok hneg
  have htruthy : valTruthy devConfig.port = true := by
    rw [hport]; simp [valTruthy, JVal.truthy, hp]
  have htried : triedPortOf devConfig = .num p := by
    unfold triedPortOf
    rw [hport]
    simp [JVal.truthy, hp]
  rw [htried, htruthy] at hguard
  simp only [jvalIsNum] at hguard
  have hpe : p = ((co.getPort (.num p) : ℕ) : ℚ) := by simpa using hguard
  rw [htried] at hs9
  refine ⟨co.getPort (.num p), ?_, hpe, ?_, ?_⟩
  · refine Nat.pos_of_ne_zero fun h0 => hp ?_
    rw [hpe, h0]
    simp
  · have hport9 : s.port = some ((co.getPort (.num p) : ℕ) : ℚ) := by
      rw [hping, hs9]
    exact hport9.trans (congrArg some hpe.symm)
  · rw [hping, hfing, hs9]
    simp only
    rw [htruthy, hport] at hconf
    simp only [Bool.true_and] at hconf
    cases hfp : d.frameworkPort with
    | none => simp
    | some b =>
      rw [hfp] at hconf
      simp only [jvalEqNum, beq_eq_false_iff_ne] at hconf
      simp only [Option.some.injEq, ne_eq]
      intro hcontra
      exact hconf (hpe.trans hcontra)

/-- Dev config for the C1 witness: custom command with a pinned port. -/
def c1wConfig : DevConfig :=
  { framework := some (.str "#custom"), command := some "npm start",
    targetPort := some (.num 3000), port := some (.num 8888) }

/-- Settings record produced for `c1wConfig` with the preferred-port
prober. -/
def c1wSettings : Settings :=
  { command := some "npm start", frameworkPort := some 3000,
    port := some ((8888 : ℕ) : ℚ), framework := some "#custom",
    jwtSecret := some "secret",
    jwtRolePath := some "app_metadata.authorization.roles" }

/-- Witness for the amended C1 theorem at a concrete pinned-port input. -/
theorem serverSettings_pinned_port_positive_ne_frameworkPort_witness :
    ∃ n : ℕ, 0 < n ∧ (8888 : ℚ) = (n : ℚ) ∧
      c1wSettings.port = some (8888 : ℚ) ∧
      c1wSettings.port ≠ c1wSettings.frameworkPort :=
  serverSettings_pinned_port_positive_ne_frameworkPort preferredCollab
    c1wConfig {} "/proj" 8888 c1wSettings rfl (by decide) rfl

/-! ## C5 -/

/-- The non-integer number 3000.5 as a rational (6001/2). -/
def c5TargetPort : ℚ := mkRat 6001 2

/-- Dev config supplying the non-integer `targetPort` 3000.5. -/
def c5Config : DevConfig :=
  { framework := some (.str "#custom"), command := some "npm run x",
    targetPort := some (.num c5TargetPort) }

/-- C5: the code accepts the non-integer `targetPort` 3000.5 — the check at
lines 149-151 only tests `typeof !== 'number'` — and resolution succeeds
with `frameworkPort = 3000.5`, although the error message at that very check
(and the spec) promises that `targetPort` must be an integer. -/
theorem serverSettings_accepts_noninteger_targetPort :
    (serverSettings preferredCollab c5Config {} "/proj").map
        (fun s => s.frameworkPort) = Except.ok (some c5TargetPort) ∧
    c5TargetPort.den ≠ 1 ∧
    errMessage .invalidTargetPort =
      "Invalid \"targetPort\" option specified. The value of \"targetPort\" option must be an integer" :=
  ⟨rfl, by decide, rfl⟩

/-! ## C7 -/

/-- Dev config for C7: only the mandatory framework field, set to auto. -/
def c7Config : DevConfig := { framework := some (.str "#auto") }

/-- Flags for C7: a static directory and nothing else. -/
def c7Flags : Flags := { dir := some "./public" }

/-- C7: with `flags.dir = "./public"`, no other configuration and a prober
returning the preferred port, resolution succeeds with `noCmd = true`,
`dist = "./public"`, `frameworkPort` the prober's answer for the default
static port 3999, and no `command`. -/
theorem serverSettings_static_dir_defaults :
    (serverSettings preferredCollab c7Config c7Flags "/proj").map
        (fun s => (s.noCmd, s.dist, s.frameworkPort, s.command)) =
      Except.ok (true, some "./public",
        some ((preferredCollab.getPort (.num DEFAULT_STATIC_PORT) : ℕ) : ℚ),
        none) ∧
    preferredCollab.getPort (.num DEFAULT_STATIC_PORT) = 3999 :=
  ⟨rfl, rfl⟩

/-! ## C2 -/

/-- C2: an explicitly pinned `devConfig.port` must be acquired exactly — if
the pipeline reaches the negotiation step and the prober answers something
else, resolution fails with the could-not-acquire error — whereas with no
pinned port the prober's answer for the default 8888 becomes the proxy port
with no exact-match requirement. -/
theorem serverSettings_pinned_port_exact_or_reject
    (co : Collab) (devConfig : DevConfig) (flags : Flags)
    (projectDir : String) :
    (∀ p draft, devConfig.port = some (.num p) → p ≠ 0 →
      preNegotiation co devConfig flags projectDir = Except.ok draft →
      ((co.getPort (.num p) : ℕ) : ℚ) ≠ p →
      serverSettings co devConfig flags projectDir =
        Except.error (.couldNotAcquirePort (.num p))) ∧
    (devConfig.port = none →
      ∀ s, serverSettings co devConfig flags projectDir = Except.ok s →
        s.port = some ((co.getPort (.num DEFAULT_PORT) : ℕ) : ℚ)) := by
  constructor
  · intro p draft hport hp hpre hmm
    have htried : triedPortOf devConfig = .num p := by
      unfold triedPortOf; rw [hport]; simp [JVal.truthy, hp]
    have htruthy : valTruthy devConfig.port = true := by
      rw [hport]; simp [valTruthy, JVal.truthy, hp]
    have hfalse : jvalIsNum (.num p) ((co.getPort (.num p) : ℕ) : ℚ) = false := by
      simp only [jvalIsNum, beq_eq_false_iff_ne, ne_eq]
      exact fun h => hmm h.symm
    unfold serverSettings
    rw [hpre]
    show postNegotiation co devConfig draft = _
    unfold postNegotiation
    rw [stepNegotiatePort_def, htried, htruthy, hfalse]
    simp [Bind.bind, Except.bind]
  · intro hnone s hok
    obtain ⟨d, hpre, hpost⟩ := (except_bind_ok _ _ _).1 hok
    obtain ⟨s9, hneg, hping, _⟩ := postNegotiation_ok hpost
    obtain ⟨hs9, _⟩ := stepNegotiatePort_ok hneg
    have htried : triedPortOf devConfig = .num DEFAULT_PORT := by
      unfold triedPortOf; rw [hnone]
    rw [htried] at hs9
    rw [hping, hs9]

/-- Dev config for the first C2 witness: custom origin with port pinned to
8888. -/
def c2aConfig : DevConfig :=
  { framework := some (.str "#custom"), command := some "npm start",
    targetPort := some (.num 3000), port := some (.num 8888) }

/-- Draft reached by `c2aConfig` just before port negotiation. -/
def c2aDraft : Settings :=
  { command := some "npm start", frameworkPort := some 3000,
    framework := some "#custom" }

/-- Dev config for the second C2 witness: custom origin, no pinned port. -/
def c2bConfig : DevConfig :=
  { framework := some (.str "#custom"), command := some "npm run b",
    targetPort := some (.num 4000) }

/-- Settings record produced for `c2bConfig` when the prober always answers
5123. -/
def c2bSettings : Settings :=
  { command := some "npm run b", frameworkPort := some 4000,
    port := some ((5123 : ℕ) : ℚ), framework := some "#custom",
    jwtSecret := some "secret",
    jwtRolePath := some "app_metadata.authorization.roles" }

/-- Witness for C2 at concrete inputs: a pinned 8888 against a prober
answering 8889 is rejected; an unpinned config accepts the prober's 5123. -/
theorem serverSettings_pinned_port_exact_or_reject_witness :
    serverSettings (constPortCollab 8889) c2aConfig {} "/proj" =
      Except.error (.couldNotAcquirePort (.num 8888)) ∧
    c2bSettings.port =
      some (((constPortCollab 5123).getPort (.num DEFAULT_PORT) : ℕ) : ℚ) :=
  ⟨(serverSettings_pinned_port_exact_or_reject (constPortCollab 8889)
      c2aConfig {} "/proj").1 8888 c2aDraft rfl (by decide) rfl (by decide),
   (serverSettings_pinned_port_exact_or_reject (constPortCollab 5123)
      c2bConfig {} "/proj").2 rfl c2bSettings rfl⟩

/-! ## C3 -/

/-- C3: whenever the custom origin branch is taken (no static-directory
flag, and either `framework = "#custom"` or both `command` and `targetPort`
truthy), `framework = "#custom"` without both `command` and `targetPort`
fails with the required-properties error, and both `command` and
`targetPort` with a framework other than `"#custom"` fail with the
must-be-custom error. -/
theorem serverSettings_custom_branch_validation
    (co : Collab) (devConfig : DevConfig) (flags : Flags) (projectDir : String)
    (hdir : strTruthy flags.dir = false) :
    (devConfig.framework = some (.str "#custom") →
      (strTruthy devConfig.command && valTruthy devConfig.targetPort) = false →
      serverSettings co devConfig flags projectDir =
        Except.error .customNeedsCommandAndTargetPort) ∧
    (∀ f, devConfig.framework = some (.str f) → f ≠ "#custom" →
      strTruthy devConfig.command = true →
      valTruthy devConfig.targetPort = true →
      serverSettings co devConfig flags projectDir =
        Except.error .frameworkMustBeCustom) := by
  constructor
  · intro hfw hcb
    unfold serverSettings preNegotiation resolveOrigin validateCustomSettings
    rw [hfw]
    simp [hdir, hfw, hcb, Bind.bind, Except.bind, Except.map]
  · intro f hfw hne hc ht
    have hbeq : ((some (.str f) : Option JVal) == some (.str "#custom")) = false := by
      simp [hne]
    unfold serverSettings preNegotiation resolveOrigin validateCustomSettings
    rw [hfw]
    simp [hdir, hfw, hc, ht, hbeq, hne, Bind.bind, Except.bind, Except.map]

/-- Dev config for the first C3 witness: custom framework, command but no
target port. -/
def c3aConfig : DevConfig :=
  { framework := some (.str "#custom"), command := some "x" }

/-- Dev config for the second C3 witness: named framework with both command
and target port. -/
def c3bConfig : DevConfig :=
  { framework := some (.str "gatsby"), command := some "x",
    targetPort := some (.num 3000) }

/-- Witness for C3 at concrete inputs. -/
theorem serverSettings_custom_branch_validation_witness :
    serverSettings (constPortCollab 1) c3aConfig {} "/proj" =
      Except.error .customNeedsCommandAndTargetPort ∧
    serverSettings (constPortCollab 1) c3bConfig {} "/proj" =
      Except.error .frameworkMustBeCustom :=
  ⟨(serverSettings_custom_branch_validation (constPortCollab 1) c3aConfig {}
      "/proj" rfl).1 rfl rfl,
   (serverSettings_custom_branch_validation (constPortCollab 1) c3bConfig {}
      "/proj" rfl).2 "gatsby" rfl (by decide) rfl rfl⟩

/-! ## C4 -/

/-- Dev config for the C4 counterexample: auto framework and a target
port. -/
def c4Config : DevConfig :=
  { framework := some (.str "#auto"), targetPort := some (.num 3000) }

/-- Flags for C4: a static directory. -/
def c4Flags : Flags := { dir := some "./public" }

/-- C4 counterexample: with `flags.dir` and `targetPort` both supplied,
resolution fails with the missing-command error, not with the dedicated
dir-conflict error the claim names — the static branch never sets a
command and the missing-command check precedes the dir-conflict check. -/
theorem serverSettings_dir_targetPort_counterexample :
    serverSettings (constPortCollab 3999) c4Config c4Flags "/proj" =
      Except.error .commandRequiredForTargetPort ∧
    DevError.commandRequiredForTargetPort ≠ DevError.targetPortWithDir :=
  ⟨rfl, by decide⟩

/-- C4 (amended): whenever a truthy numeric `targetPort` (different from
the raw `port`) is supplied together with the static-directory flag,
resolution fails — but with the missing-command error of line 160: the
static draft carries no command and the command check precedes the
dir-conflict check, so the dedicated dir-conflict error of line 164 cannot
fire in this configuration. -/
theorem serverSettings_dir_with_targetPort_missing_command
    (co : Collab) (devConfig : DevConfig) (flags : Flags) (projectDir : String)
    (f : String) (t : ℚ)
    (hfw : devConfig.framework = some (.str f))
    (hdir : strTruthy flags.dir = true)
    (htp : devConfig.targetPort = some (.num t)) (ht : t ≠ 0)
    (hne : devConfig.port ≠ some (.num t)) :
    serverSettings co devConfig flags projectDir =
      Except.error .commandRequiredForTargetPort := by
  have hbeq : (devConfig.port == some (.num t)) = false := by
    simpa using hne
  simp only [strTruthy] at hdir
  unfold serverSettings preNegotiation resolveOrigin stepCommandOverride
    stepDist stepTargetPort
  rw [hfw]
  simp [hdir, htp, ht, hbeq, getStaticServerSettings_noCmd,
    getStaticServerSettings_command, valTruthy, JVal.truthy, strTruthy,
    Bind.bind, Except.bind]

/-- Witness for the amended C4 theorem at a concrete input. -/
theorem serverSettings_dir_with_targetPort_missing_command_witness :
    serverSettings (constPortCollab 4000) c4Config c4Flags "/proj" =
      Except.error .commandRequiredForTargetPort :=
  serverSettings_dir_with_targetPort_missing_command (constPortCollab 4000)
    c4Config c4Flags "/proj" "#auto" 3000 rfl rfl rfl (by decide) (by decide)

/-! ## C6 -/

/-- C6: with more than one detector candidate, the picker is invoked exactly
once (the call trace has exactly one entry, holding the formatted option
list), the presented list has one option per (framework, watch-command)
pair — each labeled `[frameworkName] command watchArgs...` and carrying the
descriptor it came from together with the selected watch command — and the
resolved draft is derived from the chosen option's descriptor. -/
theorem detectFrameworkSettings_multi_candidate_prompt
    (a b : FrameworkDescriptor) (l : List FrameworkDescriptor)
    (picker : List InquirerOption → InquirerOption) :
    (detectFrameworkSettings (a :: b :: l) picker).2 =
        [formatSettingsArrForInquirer (a :: b :: l)] ∧
    (detectFrameworkSettings (a :: b :: l) picker).1 =
        getSettingsFromFramework
          ((picker (formatSettingsArrForInquirer (a :: b :: l))).value.toFrameworkDescriptor) ∧
    (formatSettingsArrForInquirer (a :: b :: l)).length =
        ((a :: b :: l).map (fun fw => fw.watch.commands.length)).sum ∧
    (∀ o, o ∈ formatSettingsArrForInquirer (a :: b :: l) ↔
      ∃ fw, fw ∈ a :: b :: l ∧ ∃ c, c ∈ fw.watch.commands ∧
        o = { name := "[" ++ fw.name ++ "] " ++ fw.command ++ " "
                ++ String.intercalate " " c
              value := { toFrameworkDescriptor := fw, commands := [c] }
              short := fw.name ++ "-" ++ String.intercalate "," c }) := by
  refine ⟨rfl, rfl, ?_, ?_⟩
  · simp only [formatSettingsArrForInquirer, List.length_flatten, List.map_map]
    congr 1
    refine List.map_congr_left fun fw _ => ?_
    simp [Function.comp]
  · intro o
    simp only [formatSettingsArrForInquirer, chalkYellow, List.mem_flatten,
      List.mem_map]
    constructor
    · rintro ⟨opts, ⟨fw, hfw, rfl⟩, ho⟩
      obtain ⟨c, hc, rfl⟩ := List.mem_map.1 ho
      exact ⟨fw, hfw, c, hc, rfl⟩
    · rintro ⟨fw, hfw, c, hc, rfl⟩
      exact ⟨_, ⟨fw, hfw, rfl⟩, List.mem_map.2 ⟨c, hc, rfl⟩⟩

/-- First concrete framework candidate, with two watch commands. -/
def c6FwA : FrameworkDescriptor :=
  { name := "alpha", command := "npm run dev",
    dev := { commands := ["npm run dev", "yarn dev"], port := 3000 },
    build := { directory := "dist" },
    watch := { commands := [["watch", "a"], ["watch", "b"]] } }

/-- Second concrete framework candidate, with one watch command. -/
def c6FwB : FrameworkDescriptor :=
  { name := "beta", command := "beta start",
    dev := { commands := ["beta start"], port := 4000 },
    build := { directory := "public" },
    watch := { commands := [["bwatch"]] } }

/-- Concrete picker choosing the first presented option. -/
def c6Picker : List InquirerOption → InquirerOption :=
  fun opts => opts.headD dummyOption

/-- The option expected for candidate `c6FwA` with its first watch
command. -/
def c6OptA : InquirerOption :=
  { name := "[alpha] npm run dev watch a"
    value := { toFrameworkDescriptor := c6FwA, commands := [["watch", "a"]] }
    short := "alpha-watch,a" }

/-- Witness for C6 on a concrete two-candidate list. -/
theorem detectFrameworkSettings_multi_candidate_prompt_witness :
    (detectFrameworkSettings [c6FwA, c6FwB] c6Picker).2 =
        [formatSettingsArrForInquirer [c6FwA, c6FwB]] ∧
    c6OptA ∈ formatSettingsArrForInquirer [c6FwA, c6FwB] :=
  ⟨(detectFrameworkSettings_multi_candidate_prompt c6FwA c6FwB [] c6Picker).1,
   ((detectFrameworkSettings_multi_candidate_prompt c6FwA c6FwB []
        c6Picker).2.2.2 c6OptA).2
     ⟨c6FwA, by decide, ⟨["watch", "a"], by decide, by decide⟩⟩⟩

/-! ## C8 -/

/-- Dev config for C8: custom origin plus an https block with string key and
certificate file names. -/
def c8Config : DevConfig :=
  { framework := some (.str "#custom"), command := some "npm run x",
    targetPort := some (.num 3000),
    https := some (.obj (some (.str "k.pem")) (some (.str "c.pem"))) }

/-- Draft reached by `c8Config` just before port negotiation. -/
def c8Draft : Settings :=
  { command := some "npm run x", frameworkPort := some 3000,
    framework := some "#custom" }

/-- C8: when the reader succeeds on the key file but fails on the
certificate file, the whole resolution fails with the wrapped error naming
the certificate file — not the key file — and no settings record is
returned. -/
theorem serverSettings_https_cert_read_failure
    (co : Collab) (kc m : String)
    (hk : co.readFile "k.pem" = Except.ok kc)
    (hc : co.readFile "c.pem" = Except.error m) :
    serverSettings co c8Config {} "/proj" = Except.error (.certReadError m) ∧
    errMessage (.certReadError m) = "Error reading certificate file: " ++ m := by
  constructor
  · have hpre : preNegotiation co c8Config {} "/proj" = Except.ok c8Draft := rfl
    unfold serverSettings
    rw [hpre]
    show postNegotiation co c8Config c8Draft = _
    unfold postNegotiation stepDefaults stepFunctionsPort stepHttps
      readHttpsSettings
    rw [stepNegotiatePort_def]
    simp [hk, hc, c8Config, c8Draft, valTruthy, strTruthy, jvalIsNum,
      triedPortOf, JVal.truthy, Bind.bind, Except.bind, Except.map]
  · rfl

/-- Concrete file reader succeeding on the key file and failing on the
certificate file. -/
def c8Reader : String → Except String String :=
  fun p => if p == "k.pem" then .ok "KEYDATA" else .error "ENOENT: c.pem"

/-- Collaborator bundle for the C8 witness. -/
def c8Collab : Collab := { constPortCollab 8888 with readFile := c8Reader }

/-- Witness for C8 at a concrete reader. -/
theorem serverSettings_https_cert_read_failure_witness :
    serverSettings c8Collab c8Config {} "/proj" =
      Except.error (.certReadError "ENOENT: c.pem") ∧
    errMessage (.certReadError "ENOENT: c.pem") =
      "Error reading certificate file: " ++ "ENOENT: c.pem" :=
  serverSettings_https_cert_read_failure c8Collab "KEYDATA" "ENOENT: c.pem"
    rfl rfl

/-! ## C9 -/

/-- C9: resolution is deterministic — `serverSettings` is a pure function of
the config, flags, project directory and collaborator bundle, so two calls
with identical inputs and extensionally equal (deterministic) collaborators
yield identical settings records. -/
theorem serverSettings_deterministic
    (co co' : Collab) (devConfig : DevConfig) (flags : Flags)
    (projectDir : String)
    (hgp : ∀ v, co.getPort v = co'.getPort v)
    (hrf : ∀ p, co.readFile p = co'.readFile p)
    (hlf : ∀ d, co.listFrameworks d = co'.listFrameworks d)
    (hhf : ∀ n d, co.hasFramework n d = co'.hasFramework n d)
    (hgf : ∀ n d, co.getFramework n d = co'.getFramework n d)
    (hpk : ∀ opts, co.picker opts = co'.picker opts)
    (hcwd : co.cwd = co'.cwd) :
    serverSettings co devConfig flags projectDir =
      serverSettings co' devConfig flags projectDir := by
  have h : co = co' := by
    cases co
    cases co'
    simp only [Collab.mk.injEq]
    exact ⟨funext hgp, funext hrf, funext hlf,
      funext fun n => funext fun d => hhf n d,
      funext fun n => funext fun d => hgf n d, funext hpk, hcwd⟩
  rw [h]

/-- Collaborator bundle for the C9 witness. -/
def c9Collab : Collab := constPortCollab 4321

/-- Second, separately written but extensionally identical collaborator
bundle. -/
def c9CollabAlt : Collab :=
  { getPort := fun _ => 4321
    readFile := fun _ => .error "ENOENT"
    listFrameworks := fun _ => []
    hasFramework := fun _ _ => false
    getFramework := fun _ _ => dummyFramework
    picker := fun opts => opts.headD dummyOption
    cwd := "/cwd" }

/-- Dev config for the C9 witness. -/
def c9Config : DevConfig :=
  { framework := some (.str "#static"), publish := some "public" }

/-- Witness for C9 at concrete inputs. -/
theorem serverSettings_deterministic_witness :
    serverSettings c9Collab c9Config {} "/proj" =
      serverSettings c9CollabAlt c9Config {} "/proj" :=
  serverSettings_deterministic c9Collab c9CollabAlt c9Config {} "/proj"
    (fun _ => rfl) (fun _ => rfl) (fun _ => rfl) (fun _ _ => rfl)
    (fun _ _ => rfl) (fun _ => rfl) rfl

/-! ## C10 -/

/-- C10: the watch command stored on a chosen option's value (its top-level
`commands` field) is never read when deriving settings — two pickers whose
choices share the same underlying descriptor resolve to identical drafts,
the derived settings of a spread value coincide with those of its bare
descriptor, and the resolved command is always the first `dev.commands`
entry. -/
theorem detectFrameworkSettings_watch_command_irrelevant
    (fws : List FrameworkDescriptor)
    (pk1 pk2 : List InquirerOption → InquirerOption)
    (hp : ∀ opts, (pk1 opts).value.toFrameworkDescriptor =
        (pk2 opts).value.toFrameworkDescriptor) :
    (detectFrameworkSettings fws pk1).1 = (detectFrameworkSettings fws pk2).1 ∧
    (∀ (f : FrameworkDescriptor) (cs : List (List String)),
      getSettingsFromFramework
          ({ toFrameworkDescriptor := f, commands := cs } : ChosenVal).toFrameworkDescriptor =
        getSettingsFromFramework f ∧
      (getSettingsFromFramework f).command = f.dev.commands.head?) := by
  refine ⟨?_, fun f cs => ⟨rfl, rfl⟩⟩
  rcases fws with _ | ⟨a, _ | ⟨b, l⟩⟩
  · rfl
  · rfl
  · simp only [detectFrameworkSettings]
    rw [hp]

/-- First rigged picker for the C10 witness: always chooses the option for
`c6FwA` with its first watch command. -/
def c10Pick1 : List InquirerOption → InquirerOption :=
  fun _ =>
    { name := "o1"
      value := { toFrameworkDescriptor := c6FwA, commands := [["watch", "a"]] }
      short := "1" }

/-- Second rigged picker: same descriptor, different watch command. -/
def c10Pick2 : List InquirerOption → InquirerOption :=
  fun _ =>
    { name := "o2"
      value := { toFrameworkDescriptor := c6FwA, commands := [["watch", "b"]] }
      short := "2" }

/-- Witness for C10: the two choices resolve to the same draft. -/
theorem detectFrameworkSettings_watch_command_irrelevant_witness :
    (detectFrameworkSettings [c6FwA, c6FwB] c10Pick1).1 =
      (detectFrameworkSettings [c6FwA, c6FwB] c10Pick2).1 :=
  (detectFrameworkSettings_watch_command_irrelevant [c6FwA, c6FwB]
    c10Pick1 c10Pick2 (fun _ => rfl)).1
